import Mathlib

/-!
Shallow embedding of the qstrader core covered by the specification:
the liquidate/rebalance position sizer (`src/qstrader/position_sizer/rebalance.py`),
the trading-session scheduler (`src/qstrader/trading_session.py`) and the
monthly liquidate/rebalance strategy
(`src/examples/monthly_liquidate_rebalance_backtest.py`).

Python dictionaries are embedded as association lists with an explicit
`Option`-valued lookup (a missing key is Python's `KeyError`); Python code
that can raise is embedded as `Except String`-valued functions; Python
floats are embedded as exact rationals.
-/

namespace QStrader

/-- Association-list lookup, the embedding of Python `d[k]` returning
`none` where Python raises `KeyError`. -/
def dictGet {α : Type} (d : List (String × α)) (k : String) : Option α :=
  match d with
  | [] => none
  | (k', v) :: rest => if k' = k then some v else dictGet rest k

/-- Write `d[k] = v` on an association list: replaces the value of an
existing key in place, appends the pair when the key is absent. -/
def dictSet {α : Type} (d : List (String × α)) (k : String) (v : α) :
    List (String × α) :=
  match d with
  | [] => [(k, v)]
  | (k', v') :: rest =>
      if k' = k then (k', v) :: rest else (k', v') :: dictSet rest k v

/-- Modelled from the spec: `PriceParser` (its module is not under `src/`).
§4.1 describes a fixed-point integer representation with a fixed number of
decimal places (e.g. 5); `display` converts the internal integer back into
the decimal domain. -/
def PriceParser.display (x : Int) : ℚ :=
  (x : ℚ) / 100000

/-- `OrderEvent` fields read or written by the sizing pipeline: the ticker,
the action string (`"BOT"`, `"SLD"` or `"EXIT"`), the share quantity, and
the timestamp it carries as an event. -/
structure OrderEvent where
  ticker : String
  action : String
  quantity : Int
  time : Nat
  deriving Repr, DecidableEq

/-- Modelled from the spec: `Position` (the portfolio module is not under
`src/`). §3 gives a per-ticker record of signed share quantity (the only
field the sizer reads), average cost basis and P&L. -/
structure Position where
  quantity : Int
  deriving Repr, DecidableEq

/-- The price handler as seen by the sizer: the per-ticker table holding
the current adjusted close in parsed (fixed-point integer) form, read as
`portfolio.price_handler.tickers[ticker]["adj_close"]`. -/
structure PriceHandler where
  tickers : List (String × Int)
  deriving Repr, DecidableEq

/-- Modelled from the spec: `Portfolio` (the portfolio module is not under
`src/`). §3: current equity in parsed fixed-point form, the ticker →
`Position` mapping, and a reference to current market prices. -/
structure Portfolio where
  positions : List (String × Position)
  equity : Int
  price_handler : PriceHandler
  deriving Repr, DecidableEq

/-- `LiquidateRebalancePositionSizer.size_order`
(`src/qstrader/position_sizer/rebalance.py`, lines 30–58).  The
`ticker_weights` table is the sizer's construction argument.  `Except`
failures embed the Python exceptions: `KeyError` on a missing position or
weight, `ZeroDivisionError` on a zero price. -/
def size_order (ticker_weights : List (String × ℚ)) (portfolio : Portfolio)
    (initial_order : OrderEvent) : Except String OrderEvent :=
  let ticker := initial_order.ticker
  let action := initial_order.action
  if action = "EXIT" then
    match dictGet portfolio.positions ticker with
    | none => .error ("KeyError: positions[" ++ ticker ++ "]")
    | some pos =>
      let cur_quantity := pos.quantity
      if cur_quantity > 0 then
        .ok { initial_order with action := "SLD", quantity := cur_quantity }
      else
        .ok { initial_order with action := "BOT", quantity := cur_quantity }
  else
    match dictGet ticker_weights ticker with
    | none => .error ("KeyError: ticker_weights[" ++ ticker ++ "]")
    | some weight =>
      match dictGet portfolio.price_handler.tickers ticker with
      | none => .error ("KeyError: tickers[" ++ ticker ++ "]")
      | some raw_price =>
        let price := PriceParser.display raw_price
        if price = 0 then
          .error "ZeroDivisionError"
        else
          let equity := PriceParser.display portfolio.equity
          let dollar_weight := weight * equity
          let weighted_quantity : Int := Int.floor (dollar_weight / price)
          .ok { initial_order with quantity := weighted_quantity }

/-- The quantity computed by the non-`EXIT` branch of `size_order`
(lines 49–56 of `rebalance.py`): the floor of weight times displayed
equity over displayed price, named here so theorem statements can refer
to it. -/
def rebalance_quantity (w : ℚ) (equity raw_price : Int) : Int :=
  Int.floor (w * PriceParser.display equity / PriceParser.display raw_price)

/-- Modelled from the spec: applying a sized order's fill to a signed
position quantity (the portfolio/fill modules are not under `src/`).
§3 makes `Position.quantity` a signed share count and the glossary defines
netting as trading in the opposite direction, so a `BOT` fill adds the
order quantity to the signed position and a `SLD` fill subtracts it. -/
def applyOrder (position_quantity : Int) (action : String) (quantity : Int) :
    Int :=
  if action = "BOT" then position_quantity + quantity
  else if action = "SLD" then position_quantity - quantity
  else position_quantity

/-- Leap-year test of the proleptic Gregorian calendar, as used by Python's
`calendar.monthrange`. -/
def isLeapYear (y : Nat) : Bool :=
  (y % 4 == 0 && y % 100 != 0) || y % 400 == 0

/-- Number of days in a month, the second component of Python's
`calendar.monthrange(year, month)`. -/
def daysInMonth (y m : Nat) : Nat :=
  if m = 2 then (if isLeapYear y then 29 else 28)
  else if m = 4 ∨ m = 6 ∨ m = 9 ∨ m = 11 then 30
  else 31

/-- The calendar-date part of a timestamp: all the strategy reads from
`event.time` is its year, month and day. -/
structure DateTime where
  year : Nat
  month : Nat
  day : Nat
  deriving Repr, DecidableEq

/-- `MonthlyLiquidateRebalanceStrategy._end_of_month`
(`src/examples/monthly_liquidate_rebalance_backtest.py`, lines 31–37). -/
def end_of_month (cur_time : DateTime) : Bool :=
  cur_time.day == daysInMonth cur_time.year cur_time.month

/-- A market event as read by `calculate_signals`: its `EventType` tag
(embedded as a string over the closed set of variant names), ticker and
timestamp. -/
structure MarketEvent where
  type : String
  ticker : String
  time : DateTime
  deriving Repr, DecidableEq

/-- A `SignalEvent(ticker, action)` as enqueued by the strategy. -/
structure SignalEvent where
  ticker : String
  action : String
  deriving Repr, DecidableEq

/-- The mutable state of `MonthlyLiquidateRebalanceStrategy`: its ticker
list and its `tickers_invested` dictionary. -/
structure StrategyState where
  tickers : List String
  tickers_invested : List (String × Bool)
  deriving Repr, DecidableEq

/-- `MonthlyLiquidateRebalanceStrategy._create_invested_list`
(lines 39–47): every ticker mapped to `False`. -/
def create_invested_list (tickers : List String) : List (String × Bool) :=
  tickers.map (fun ticker => (ticker, false))

/-- `MonthlyLiquidateRebalanceStrategy.__init__` (lines 26–29). -/
def mkStrategy (tickers : List String) : StrategyState :=
  { tickers := tickers, tickers_invested := create_invested_list tickers }

/-- `MonthlyLiquidateRebalanceStrategy.calculate_signals` (lines 49–67).
Returns the updated state together with the list of signals put on the
events queue, in queue order; `.error` embeds the `KeyError` raised when
the event's ticker is not a key of `tickers_invested`. -/
def calculate_signals (s : StrategyState) (event : MarketEvent) :
    Except String (StrategyState × List SignalEvent) :=
  if (event.type = "BAR" ∨ event.type = "TICK") ∧ end_of_month event.time then
    let ticker := event.ticker
    match dictGet s.tickers_invested ticker with
    | none => .error ("KeyError: tickers_invested[" ++ ticker ++ "]")
    | some invested =>
      let signals :=
        (if invested then [SignalEvent.mk ticker "EXIT"] else [])
          ++ [SignalEvent.mk ticker "BOT"]
      .ok ({ s with tickers_invested := dictSet s.tickers_invested ticker true },
           signals)
  else
    .ok (s, [])

/-- One observable call to `calculate_signals` as a state transformer: on a
`KeyError` the exception propagates before any mutation, so the state is
unchanged. -/
def calcStep (s : StrategyState) (event : MarketEvent) : StrategyState :=
  match calculate_signals s event with
  | .ok (s', _) => s'
  | .error _ => s

/-- A sequence of calls to `calculate_signals`, oldest event first. -/
def calcRun (s : StrategyState) (events : List MarketEvent) : StrategyState :=
  events.foldl calcStep s

/-- The fields of `TradingSession` that its loop-control code reads:
`session_type`, the optional `end_session_time` cutoff, and the price
handler's `continue_backtest` flag (`src/qstrader/trading_session.py`). -/
structure SessionState where
  session_type : String
  end_session_time : Option Nat
  continue_backtest : Bool
  deriving Repr, DecidableEq

/-- `TradingSession._continue_loop_condition`
(`src/qstrader/trading_session.py`, lines 131–135).  `now` is the value of
`datetime.now()` at the moment of the check; `none` embeds the `TypeError`
Python raises when comparing `datetime.now() < None`. -/
def continue_loop_condition (s : SessionState) (now : Nat) : Option Bool :=
  if s.session_type = "backtest" then
    some s.continue_backtest
  else
    s.end_session_time.map (fun t => decide (now < t))

/-- Number of loop iterations `TradingSession._run_session`
(lines 150–176) executes, given an abstract loop body (queue pop plus
dispatch, which may change the session state), a wall clock giving
`datetime.now()` at the `i`-th condition check, a fuel bound, the index of
the current check and the current state.  The condition is evaluated once
per iteration, before the body; the loop stops as soon as it is not
`some true` (false, or the `TypeError` of a missing cutoff). -/
def run_session_iters (body : SessionState → SessionState) (clock : Nat → Nat) :
    Nat → Nat → SessionState → Nat
  | 0, _, _ => 0
  | fuel + 1, i, s =>
    match continue_loop_condition s (clock i) with
    | some true => 1 + run_session_iters body clock fuel (i + 1) (body s)
    | _ => 0

/-- The per-event dispatch of `TradingSession._run_session`
(lines 156–176), keyed by the event's type tag: which collaborator the
event is forwarded to, or `.error` for the `raise` of the final `else`
branch.  Tags are embedded as strings because the queue is dynamically
typed: any object can reach the scheduler. -/
inductive DispatchTarget where
  | marketUpdate
  | sentimentToStrategy
  | signalToPortfolio
  | orderToExecution
  | fillToPortfolio
  deriving Repr, DecidableEq

/-- Dispatch by event type in `TradingSession._run_session`: the
`if/elif` chain of lines 157–176. -/
def dispatchEvent (etype : String) : Except String DispatchTarget :=
  if etype = "TICK" ∨ etype = "BAR" then .ok .marketUpdate
  else if etype = "SENTIMENT" then .ok .sentimentToStrategy
  else if etype = "SIGNAL" then .ok .signalToPortfolio
  else if etype = "ORDER" then .ok .orderToExecution
  else if etype = "FILL" then .ok .fillToPortfolio
  else .error ("Unsupported event.type " ++ etype)

/-- The end-of-constructor validation of `TradingSession.__init__`
(lines 85–87): a live session must carry an `end_session_time`; the check
runs at construction, before any loop iteration. -/
def init_session_check (session_type : String)
    (end_session_time : Option Nat) : Except String Unit :=
  if session_type = "live" then
    if end_session_time = none then
      .error "Must specify an end_session_time when live trading"
    else .ok ()
  else .ok ()

/-! ## Helper lemmas -/

theorem dictGet_dictSet_self {α : Type} (d : List (String × α)) (k : String)
    (v : α) : dictGet (dictSet d k v) k = some v := by
  induction d with
  | nil => simp [dictGet, dictSet]
  | cons hd tl ih =>
    obtain ⟨k', v'⟩ := hd
    by_cases hk : k' = k
    · simp [dictGet, dictSet, hk]
    · simp [dictGet, dictSet, hk, ih]

theorem dictGet_dictSet_other {α : Type} (d : List (String × α))
    (k k' : String) (v : α) (hne : k' ≠ k) :
    dictGet (dictSet d k v) k' = dictGet d k' := by
  induction d with
  | nil => simp [dictGet, dictSet, if_neg (Ne.symm hne)]
  | cons hd tl ih =>
    obtain ⟨k₀, v₀⟩ := hd
    by_cases hk : k₀ = k
    · subst hk
      simp [dictGet, dictSet, if_neg (Ne.symm hne)]
    · simp only [dictSet, if_neg hk]
      by_cases hk' : k₀ = k'
      · simp [dictGet, hk']
      · simp [dictGet, hk', ih]

theorem dictGet_create_invested (tickers : List String) (t : String)
    (ht : t ∈ tickers) :
    dictGet (create_invested_list tickers) t = some false := by
  induction tickers with
  | nil => cases ht
  | cons hd tl ih =>
    rcases List.mem_cons.mp ht with ht' | ht'
    · simp [create_invested_list, dictGet, ht']
    · by_cases hhd : hd = t
      · simp [create_invested_list, dictGet, hhd]
      · simpa [create_invested_list, dictGet, hhd] using ih ht'

/-- `calcStep` either leaves the invested dictionary unchanged or writes
`true` at the event's ticker. -/
theorem calcStep_invested_cases (s : StrategyState) (e : MarketEvent) :
    (calcStep s e).tickers_invested = s.tickers_invested ∨
    (calcStep s e).tickers_invested =
      dictSet s.tickers_invested e.ticker true := by
  unfold calcStep calculate_signals
  by_cases hc : (e.type = "BAR" ∨ e.type = "TICK") ∧ end_of_month e.time = true
  · rw [if_pos hc]
    rcases h : dictGet s.tickers_invested e.ticker with _ | b
    · simp [h]
    · simp [h]
  · rw [if_neg hc]; exact Or.inl rfl

/-- A `true` invested flag survives one `calculate_signals` call. -/
theorem calcStep_invested_mono (s : StrategyState) (e : MarketEvent)
    (t : String) (h : dictGet s.tickers_invested t = some true) :
    dictGet (calcStep s e).tickers_invested t = some true := by
  rcases calcStep_invested_cases s e with hc | hc
  · rw [hc]; exact h
  · rw [hc]
    by_cases ht : t = e.ticker
    · subst ht; exact dictGet_dictSet_self _ _ _
    · rw [dictGet_dictSet_other _ _ _ _ ht]; exact h

/-- A `true` invested flag survives any further sequence of calls. -/
theorem calcRun_invested_mono (s : StrategyState) (events : List MarketEvent)
    (t : String) (h : dictGet s.tickers_invested t = some true) :
    dictGet (calcRun s events).tickers_invested t = some true := by
  induction events generalizing s with
  | nil => exact h
  | cons e rest ih =>
    exact ih (calcStep s e) (calcStep_invested_mono s e t h)

/-! ## Claim theorems: position sizer -/

/-- C1: evaluation of `size_order` at a short position.  For an `EXIT`
order over a ticker held at signed quantity `-5`, the sizer emits a `BOT`
order with quantity `-5`; applying that order to the position yields
`-10`, not the net-to-zero the sizer's own docstring ("BOT or SLD to net
the position to zero") and the specification promise. -/
theorem size_order_exit_short_eval :
    size_order []
        { positions := [("SPY", { quantity := -5 })], equity := 0,
          price_handler := { tickers := [] } }
        { ticker := "SPY", action := "EXIT", quantity := 0, time := 0 } =
      Except.ok
        { ticker := "SPY", action := "BOT", quantity := -5, time := 0 } ∧
    applyOrder (-5) "BOT" (-5) = -10 ∧ (-10 : Int) ≠ 0 := by
  refine ⟨rfl, rfl, by decide⟩

/-- C2 counterexample: with a positive weight `1/2` but a negative account
equity (display value `-100`), the sized quantity is `-5 < 0`, so "for
every positive weight the quantity is never negative" is false as
stated. -/
theorem size_order_negative_equity_counterexample :
    (0 : ℚ) < 1 / 2 ∧
    size_order [("SPY", 1 / 2)]
        { positions := [], equity := -10000000,
          price_handler := { tickers := [("SPY", 1000000)] } }
        { ticker := "SPY", action := "BOT", quantity := 0, time := 3 } =
      Except.ok
        { ticker := "SPY", action := "BOT", quantity := -5, time := 3 } ∧
    (-5 : Int) < 0 := by
  refine ⟨by norm_num, ?_, by decide⟩
  norm_num [size_order, dictGet, PriceParser.display]
  intro h
  exact absurd h (by decide)

/-- C2 (amended): for a non-`EXIT` order whose ticker has a weight `w` and
a positive displayed price `p`, the sized quantity is exactly
`⌊w * E / p⌋` for the displayed equity `E`; and that quantity is
nonnegative whenever the weight is positive and the equity is
nonnegative. -/
theorem size_order_rebalance_floor (ticker_weights : List (String × ℚ))
    (portfolio : Portfolio) (o : OrderEvent) (w : ℚ) (raw_price : Int)
    (hact : o.action ≠ "EXIT")
    (hw : dictGet ticker_weights o.ticker = some w)
    (hp : dictGet portfolio.price_handler.tickers o.ticker = some raw_price)
    (hpos : 0 < PriceParser.display raw_price) :
    size_order ticker_weights portfolio o =
      Except.ok
        { o with quantity := rebalance_quantity w portfolio.equity raw_price } ∧
    (0 < w → 0 ≤ PriceParser.display portfolio.equity →
      0 ≤ rebalance_quantity w portfolio.equity raw_price) := by
  constructor
  · have hne : PriceParser.display raw_price ≠ 0 := ne_of_gt hpos
    simp [size_order, hact, hw, hp, hne, rebalance_quantity]
  · intro hw0 he0
    rw [rebalance_quantity, Int.le_floor]
    push_cast
    exact div_nonneg (mul_nonneg hw0.le he0) hpos.le

/-- Witness for C2's amended theorem at the specification's own scenario:
weight `0.6`, displayed equity `500000`, displayed price `100`, giving
`⌊0.6 * 500000 / 100⌋ = 3000` shares. -/
theorem size_order_rebalance_floor_witness :
    size_order [("SPY", 3 / 5)]
        { positions := [], equity := 50000000000,
          price_handler := { tickers := [("SPY", 10000000)] } }
        { ticker := "SPY", action := "BOT", quantity := 0, time := 7 } =
      Except.ok
        { ticker := "SPY", action := "BOT",
          quantity := rebalance_quantity (3 / 5) 50000000000 10000000,
          time := 7 } ∧
    ((0 : ℚ) < 3 / 5 → 0 ≤ PriceParser.display (50000000000 : Int) →
      0 ≤ rebalance_quantity (3 / 5) 50000000000 10000000) :=
  size_order_rebalance_floor [("SPY", 3 / 5)]
    { positions := [], equity := 50000000000,
      price_handler := { tickers := [("SPY", 10000000)] } }
    { ticker := "SPY", action := "BOT", quantity := 0, time := 7 }
    (3 / 5) 10000000 (by decide) rfl rfl
    (by norm_num [PriceParser.display])

/-- C7: a non-`EXIT` order whose ticker is missing from the weight table
fails immediately with the `KeyError` of the weight lookup; no fallback
quantity is produced. -/
theorem size_order_missing_weight_error (ticker_weights : List (String × ℚ))
    (portfolio : Portfolio) (o : OrderEvent)
    (hact : o.action ≠ "EXIT")
    (hw : dictGet ticker_weights o.ticker = none) :
    size_order ticker_weights portfolio o =
      Except.error ("KeyError: ticker_weights[" ++ o.ticker ++ "]") := by
  simp [size_order, hact, hw]

/-- Witness for C7 at a concrete order over a ticker with no weight. -/
theorem size_order_missing_weight_error_witness :
    size_order [("SPY", 3 / 5)]
        { positions := [], equity := 0, price_handler := { tickers := [] } }
        { ticker := "AGG", action := "BOT", quantity := 0, time := 0 } =
      Except.error ("KeyError: ticker_weights[" ++ "AGG" ++ "]") :=
  size_order_missing_weight_error [("SPY", 3 / 5)]
    { positions := [], equity := 0, price_handler := { tickers := [] } }
    { ticker := "AGG", action := "BOT", quantity := 0, time := 0 }
    (by decide) rfl

/-- C8: whenever `size_order` succeeds, the returned order is the incoming
order with at most `action` and `quantity` rewritten — ticker and
timestamp are unchanged — and on the non-`EXIT` branch the action itself
is also unchanged (only `quantity` is written). -/
theorem size_order_frame (ticker_weights : List (String × ℚ))
    (portfolio : Portfolio) (o o' : OrderEvent)
    (h : size_order ticker_weights portfolio o = Except.ok o') :
    o'.ticker = o.ticker ∧ o'.time = o.time ∧
    (o.action ≠ "EXIT" → o'.action = o.action) := by
  by_cases hact : o.action = "EXIT"
  · rcases hpos : dictGet portfolio.positions o.ticker with _ | pos
    · simp [size_order, hact, hpos] at h
    · by_cases hq : pos.quantity > 0
      · simp [size_order, hact, hpos, hq] at h
        refine ⟨?_, ?_, fun hne => absurd hact hne⟩ <;> rw [← h]
      · simp [size_order, hact, hpos, hq] at h
        refine ⟨?_, ?_, fun hne => absurd hact hne⟩ <;> rw [← h]
  · rcases hw : dictGet ticker_weights o.ticker with _ | w
    · simp [size_order, hact, hw] at h
    · rcases hp : dictGet portfolio.price_handler.tickers o.ticker with _ | rp
      · simp [size_order, hact, hw, hp] at h
      · by_cases hz : PriceParser.display rp = 0
        · simp [size_order, hact, hw, hp, hz] at h
        · simp [size_order, hact, hw, hp, hz] at h
          refine ⟨?_, ?_, fun _ => ?_⟩ <;> rw [← h]

/-- Witness for C8: a concrete successful `EXIT` sizing, with ticker and
timestamp preserved. -/
theorem size_order_frame_witness :
    ({ ticker := "SPY", action := "SLD", quantity := 4, time := 9 } :
        OrderEvent).ticker =
      ({ ticker := "SPY", action := "EXIT", quantity := 0, time := 9 } :
        OrderEvent).ticker ∧
    ({ ticker := "SPY", action := "SLD", quantity := 4, time := 9 } :
        OrderEvent).time =
      ({ ticker := "SPY", action := "EXIT", quantity := 0, time := 9 } :
        OrderEvent).time ∧
    (({ ticker := "SPY", action := "EXIT", quantity := 0, time := 9 } :
        OrderEvent).action ≠ "EXIT" →
      ({ ticker := "SPY", action := "SLD", quantity := 4, time := 9 } :
          OrderEvent).action =
        ({ ticker := "SPY", action := "EXIT", quantity := 0, time := 9 } :
          OrderEvent).action) :=
  size_order_frame []
    { positions := [("SPY", { quantity := 4 })], equity := 0,
      price_handler := { tickers := [] } }
    { ticker := "SPY", action := "EXIT", quantity := 0, time := 9 }
    { ticker := "SPY", action := "SLD", quantity := 4, time := 9 }
    rfl

/-- C10: sizing an `EXIT` order reads `portfolio.positions[ticker]`
directly: when no `Position` record exists for the ticker the sizer fails
with the lookup's `KeyError` (no zero-quantity netting order is returned),
and when a record exists that error branch is unreachable — sizing
succeeds. -/
theorem size_order_exit_requires_position
    (ticker_weights : List (String × ℚ)) (portfolio : Portfolio)
    (o : OrderEvent) (hact : o.action = "EXIT") :
    (dictGet portfolio.positions o.ticker = none →
      size_order ticker_weights portfolio o =
        Except.error ("KeyError: positions[" ++ o.ticker ++ "]")) ∧
    (∀ pos, dictGet portfolio.positions o.ticker = some pos →
      ∃ o', size_order ticker_weights portfolio o = Except.ok o') := by
  constructor
  · intro hnone
    simp [size_order, hact, hnone]
  · intro pos hpos
    by_cases hq : pos.quantity > 0
    · refine ⟨{ o with action := "SLD", quantity := pos.quantity }, ?_⟩
      simp [size_order, hact, hpos, hq]
    · refine ⟨{ o with action := "BOT", quantity := pos.quantity }, ?_⟩
      simp [size_order, hact, hpos, hq]

/-- Witness for C10: an `EXIT` order over a never-filled ticker fails with
the position lookup's `KeyError`. -/
theorem size_order_exit_requires_position_witness :
    size_order []
        { positions := [], equity := 0, price_handler := { tickers := [] } }
        { ticker := "SPY", action := "EXIT", quantity := 0, time := 0 } =
      Except.error ("KeyError: positions[" ++ "SPY" ++ "]") :=
  (size_order_exit_requires_position []
    { positions := [], equity := 0, price_handler := { tickers := [] } }
    { ticker := "SPY", action := "EXIT", quantity := 0, time := 0 }
    rfl).1 rfl

/-! ## Claim theorems: monthly liquidate/rebalance strategy -/

/-- C3: a `BAR`/`TICK` event on a non-month-end day enqueues no signal and
leaves the strategy state unchanged; on the last calendar day of its
month it enqueues exactly `EXIT` then `BOT` for an already-invested
ticker, and only `BOT` for a not-yet-invested ticker. -/
theorem calculate_signals_month_end (s : StrategyState) (e : MarketEvent)
    (htype : e.type = "BAR" ∨ e.type = "TICK") :
    (end_of_month e.time = false → calculate_signals s e = Except.ok (s, [])) ∧
    (end_of_month e.time = true →
      (dictGet s.tickers_invested e.ticker = some true →
        calculate_signals s e =
          Except.ok
            ({ s with
                tickers_invested := dictSet s.tickers_invested e.ticker true },
             [SignalEvent.mk e.ticker "EXIT", SignalEvent.mk e.ticker "BOT"])) ∧
      (dictGet s.tickers_invested e.ticker = some false →
        calculate_signals s e =
          Except.ok
            ({ s with
                tickers_invested := dictSet s.tickers_invested e.ticker true },
             [SignalEvent.mk e.ticker "BOT"]))) := by
  constructor
  · intro hm
    simp [calculate_signals, hm]
  · intro hm
    constructor <;> intro hinv <;> simp [calculate_signals, htype, hm, hinv]

/-- Witness for C3: a mid-month bar is a no-op; the 2006-11-30 month-end
bar for a not-yet-invested ticker enqueues only the `BOT` signal. -/
theorem calculate_signals_month_end_witness :
    calculate_signals (mkStrategy ["SPY"])
        { type := "BAR", ticker := "SPY",
          time := { year := 2006, month := 11, day := 15 } } =
      Except.ok (mkStrategy ["SPY"], []) ∧
    calculate_signals (mkStrategy ["SPY"])
        { type := "BAR", ticker := "SPY",
          time := { year := 2006, month := 11, day := 30 } } =
      Except.ok
        ({ tickers := ["SPY"], tickers_invested := [("SPY", true)] },
         [SignalEvent.mk "SPY" "BOT"]) :=
  ⟨(calculate_signals_month_end (mkStrategy ["SPY"])
      { type := "BAR", ticker := "SPY",
        time := { year := 2006, month := 11, day := 15 } }
      (Or.inl rfl)).1 (by decide),
   ((calculate_signals_month_end (mkStrategy ["SPY"])
      { type := "BAR", ticker := "SPY",
        time := { year := 2006, month := 11, day := 30 } }
      (Or.inl rfl)).2 (by decide)).2 rfl⟩

/-- C6: every ticker's invested flag starts `false` at construction; one
`calculate_signals` call either leaves a flag unchanged or flips it from
`false` to `true`; and once `true` it stays `true` under any further
sequence of calls. -/
theorem tickers_invested_monotone :
    (∀ (tickers : List String) (t : String), t ∈ tickers →
      dictGet (mkStrategy tickers).tickers_invested t = some false) ∧
    (∀ (s : StrategyState) (e : MarketEvent) (t : String) (b : Bool),
      dictGet s.tickers_invested t = some b →
      dictGet (calcStep s e).tickers_invested t = some b ∨
        (b = false ∧ dictGet (calcStep s e).tickers_invested t = some true)) ∧
    (∀ (s : StrategyState) (events : List MarketEvent) (t : String),
      dictGet s.tickers_invested t = some true →
      dictGet (calcRun s events).tickers_invested t = some true) := by
  refine ⟨?_, ?_, ?_⟩
  · intro tickers t ht
    exact dictGet_create_invested tickers t ht
  · intro s e t b hb
    rcases calcStep_invested_cases s e with hc | hc
    · left; rw [hc]; exact hb
    · by_cases ht : t = e.ticker
      · subst ht
        cases b
        · right
          exact ⟨rfl, by rw [hc]; exact dictGet_dictSet_self _ _ _⟩
        · left
          rw [hc]
          exact dictGet_dictSet_self _ _ _
      · left
        rw [hc, dictGet_dictSet_other _ _ _ _ ht]
        exact hb
  · intro s events t h
    exact calcRun_invested_mono s events t h

/-- Witness for C6: the flag of `"SPY"` is `false` at construction, and a
`true` flag survives an empty run of further calls. -/
theorem tickers_invested_monotone_witness :
    dictGet (mkStrategy ["SPY"]).tickers_invested "SPY" = some false ∧
    dictGet
        (calcRun { tickers := ["SPY"], tickers_invested := [("SPY", true)] }
          []).tickers_invested "SPY" = some true :=
  ⟨tickers_invested_monotone.1 ["SPY"] "SPY" (by decide),
   tickers_invested_monotone.2.2
     { tickers := ["SPY"], tickers_invested := [("SPY", true)] } [] "SPY" rfl⟩

/-! ## Claim theorems: trading session -/

/-- C4: the loop's continuation predicate is the `continue_backtest` flag
for a `"backtest"` session and the wall-clock-before-cutoff test for any
other session type; the loop checks it once per iteration and performs an
iteration exactly when it evaluates to true. -/
theorem continue_loop_characterization :
    (∀ (s : SessionState) (now : Nat), s.session_type = "backtest" →
      continue_loop_condition s now = some s.continue_backtest) ∧
    (∀ (s : SessionState) (now t : Nat), s.session_type ≠ "backtest" →
      s.end_session_time = some t →
      continue_loop_condition s now = some (decide (now < t))) ∧
    (∀ (body : SessionState → SessionState) (clock : Nat → Nat)
        (fuel i : Nat) (s : SessionState),
      (run_session_iters body clock (fuel + 1) i s = 0 ↔
        continue_loop_condition s (clock i) ≠ some true) ∧
      (continue_loop_condition s (clock i) = some true →
        run_session_iters body clock (fuel + 1) i s =
          1 + run_session_iters body clock fuel (i + 1) (body s))) := by
  refine ⟨?_, ?_, ?_⟩
  · intro s now h
    simp [continue_loop_condition, h]
  · intro s now t h ht
    simp [continue_loop_condition, h, ht]
  · intro body clock fuel i s
    constructor
    · constructor
      · intro h0 hc
        simp [run_session_iters, hc] at h0
      · intro hc
        rcases h : continue_loop_condition s (clock i) with _ | b
        · simp [run_session_iters, h]
        · cases b
          · simp [run_session_iters, h]
          · exact absurd h hc
    · intro hc
      simp [run_session_iters, hc]

/-- Witness for C4: a backtest session's predicate is its feed flag; a
live session's predicate compares the clock with its cutoff; with the
predicate true one iteration runs before the rest of the loop. -/
theorem continue_loop_characterization_witness :
    continue_loop_condition (⟨"backtest", none, true⟩ : SessionState) 0 =
      some true ∧
    continue_loop_condition (⟨"live", some 5, false⟩ : SessionState) 3 =
      some (decide (3 < 5)) ∧
    run_session_iters id (fun _ => 0) (0 + 1) 0
        (⟨"backtest", none, true⟩ : SessionState) =
      1 + run_session_iters id (fun _ => 0) 0 (0 + 1)
        (id (⟨"backtest", none, true⟩ : SessionState)) :=
  ⟨continue_loop_characterization.1 ⟨"backtest", none, true⟩ 0 rfl,
   continue_loop_characterization.2.1 ⟨"live", some 5, false⟩ 3 5
     (by decide) rfl,
   (continue_loop_characterization.2.2 id (fun _ => 0) 0 0
     ⟨"backtest", none, true⟩).2 rfl⟩

/-- C5: any event whose type tag is none of the six supported variants is
dispatched to no collaborator: the scheduler's final `else` raises,
aborting the session. -/
theorem dispatch_unknown_event_error (etype : String)
    (h1 : etype ≠ "TICK") (h2 : etype ≠ "BAR") (h3 : etype ≠ "SENTIMENT")
    (h4 : etype ≠ "SIGNAL") (h5 : etype ≠ "ORDER") (h6 : etype ≠ "FILL") :
    dispatchEvent etype =
      Except.error ("Unsupported event.type " ++ etype) := by
  simp [dispatchEvent, h1, h2, h3, h4, h5, h6]

/-- Witness for C5 at a concrete unsupported tag. -/
theorem dispatch_unknown_event_error_witness :
    dispatchEvent "BOGUS" =
      Except.error ("Unsupported event.type " ++ "BOGUS") :=
  dispatch_unknown_event_error "BOGUS" (by decide) (by decide) (by decide)
    (by decide) (by decide) (by decide)

/-- C9: constructing a live session without an `end_session_time` raises
at construction time, before any loop iteration; a backtest session
passes the check whatever its `end_session_time`. -/
theorem init_session_check_live_cutoff :
    init_session_check "live" none =
      Except.error "Must specify an end_session_time when live trading" ∧
    ∀ (t : Option Nat), init_session_check "backtest" t = Except.ok () :=
  ⟨rfl, fun _ => rfl⟩

end QStrader
